import Mathlib

/-!
Shallow embedding of `src/swagger/lib/auth-middleware.js` (the volos swagger
authorization middleware) and proofs of the specification claims about it.

JavaScript objects used as string-keyed maps are modelled as association lists
`List (String × α)` preserving insertion order: property assignment updates an
existing key in place and appends a fresh key at the end, matching JS property
enumeration order (which underscore's `_.each` follows).
-/

set_option autoImplicit false

namespace VolosAuth

/-- Property read `obj[k]` on a JS object modelled as an assoc list. -/
def lookupAssoc {α : Type} : List (String × α) → String → Option α
  | [], _ => none
  | (k0, v) :: rest, k => if k0 = k then some v else lookupAssoc rest k

/-- Property write `obj[k] = v` on a JS object: updates an existing key in
place, otherwise appends the new key at the end (JS insertion order). -/
def setAssoc {α : Type} : List (String × α) → String → α → List (String × α)
  | [], k, v => [(k, v)]
  | (k0, v0) :: rest, k, v =>
    if k0 = k then (k, v) :: rest else (k0, v0) :: setAssoc rest k v

/-- Keys of a JS object (`Object.keys`). -/
def assocKeys {α : Type} (l : List (String × α)) : List String :=
  l.map (fun kv => kv.1)

/-- Values of a JS object (what underscore iterates for `_.filter`,
`_.contains`, `_.each` on objects). -/
def assocValues {α : Type} (l : List (String × α)) : List α :=
  l.map (fun kv => kv.2)

/-- JS `a || b` on two values that are either objects (truthy, even when
empty) or absent (`undefined`, falsy): only an absent left operand falls
through to the right operand. -/
def jsOr {α : Type} : Option α → Option α → Option α
  | some x, _ => some x
  | none, b => b

/- ### Swagger data model -/

/-- Path item of a swagger document: an opaque operations payload plus the
`x-volos-oauth-service` tag that `importOAuth` writes onto injected flow
path items. -/
structure PathItem where
  opsId : String
  oauthService : Option String
deriving DecidableEq, Repr

/-- Data-shape (schema) definition object from `definitions`. Opaque payload;
only its identity matters to the middleware. -/
structure SchemaDef where
  schemaId : String
deriving DecidableEq, Repr

/-- JS value passed as `tokenPaths`: either an array of target path strings
or an object mapping endpoint name to target path string. The source uses
both array semantics (`paths.length === 0`) and object semantics
(`_.each(paths, function(path, name))` with `name` used as the template
key), so both shapes are modelled. -/
inductive JsPaths where
  | arr (elems : List String)
  | obj (entries : List (String × String))
deriving DecidableEq, Repr

/-- JS `paths.length === 0`: for an array this is the emptiness test; for an
object `length` is `undefined` and `undefined === 0` is `false`. -/
def JsPaths.lengthIsZero : JsPaths → Bool
  | .arr l => l.isEmpty
  | .obj _ => false

/-- What `_.each(paths, function(path, name))` iterates: for an array the
pairs `(element, index)` with the index stringified when used as a key, for
an object the pairs `(value, key)`. First component is the target path
(`path`), second the endpoint name (`name`). -/
def JsPaths.eachPairs : JsPaths → List (String × String)
  | .arr l => l.enum.map (fun p => (p.2, toString p.1))
  | .obj l => l.map (fun kv => (kv.2, kv.1))

/-- What `_.filter(paths, ...)` iterates: the values. -/
def JsPaths.values : JsPaths → List String
  | .arr l => l
  | .obj l => l.map (fun kv => kv.2)

/-- Helper-function value: either the raw string reference from the service
options or the callable resolved through `helpers.getHelperFunction`.
Modelled from the spec: `helpers.js` is not under `src/`; the Helper
Resolver turns `(ownerLabel, reference)` into a callable. -/
inductive HelperFn where
  | ref (r : String)
  | resolved (owner : String) (r : String)
deriving DecidableEq, Repr

/-- Options bag of a service declaration (`serviceDefinition.options`).
`passwordCheck` and `tokenPaths` are the two reserved keys the middleware
inspects; `validGrantTypes` models the oauth-only field that the created
resource exposes and `swaggerSecurityHandlers` filters on. -/
structure ServiceOptions where
  passwordCheck : Option String
  tokenPaths : Option JsPaths
  validGrantTypes : Option (List String)
deriving DecidableEq, Repr

/-- Service declaration `{provider, options}` under one of the
`SERVICES` keys. -/
structure ServiceDef where
  provider : String
  options : ServiceOptions
deriving DecidableEq, Repr

/-- Instantiated security resource. `module.create(options)` is an external
provider call (out of scope per the spec); the instance is modelled as the
deterministic record of the provider reference and its processed options. -/
structure Service where
  provider : String
  passwordCheck : Option HelperFn
  tokenPaths : Option JsPaths
  validGrantTypes : Option (List String)
deriving DecidableEq, Repr

/-- The live swagger specification object. The two recognized
service-declaration keys `SERVICES = ['x-a127-services', 'x-volos-resources']`
are modelled as the two fields, in that fixed priority order. `paths` and
`definitions` are `Option` because the source creates them on demand
(`swagger.paths || (swagger.paths = {})`); a path value can itself be the JS
`undefined` (assigning a failed template lookup creates the key with value
`undefined`), hence `Option PathItem` values. -/
structure Swagger where
  a127Services : List (String × ServiceDef)
  volosResources : List (String × ServiceDef)
  paths : Option (List (String × Option PathItem))
  definitions : Option (List (String × SchemaDef))
deriving DecidableEq, Repr

/- ### The bundled flow-template document -/

/-- Shape of `oauthSwagger`, the parsed `../spec/oauth_operations.yaml`. -/
structure TemplateDoc where
  paths : List (String × PathItem)
  definitions : List (String × SchemaDef)
deriving DecidableEq, Repr

/-- Modelled from the spec: the bundled flow-template document
(`../spec/oauth_operations.yaml`, which is part of this repository but not
under `src/`). Per the spec it provides canonical path-items keyed by a
`/<endpointName>` key for the standard flow endpoints (token issuance, token
refresh, authorization-code exchange, invalidation) together with their
data-shape definitions. -/
def oauthSwagger : TemplateDoc :=
  { paths :=
      [ ("/authorize", { opsId := "template:authorize", oauthService := none })
      , ("/token", { opsId := "template:token", oauthService := none })
      , ("/invalidate", { opsId := "template:invalidate", oauthService := none })
      , ("/refresh", { opsId := "template:refresh", oauthService := none }) ]
  , definitions :=
      [ ("TokenResponse", { schemaId := "template:TokenResponse" })
      , ("ErrorResult", { schemaId := "template:ErrorResult" }) ] }

/-- The valid token-path names computed in the error branch of `importOAuth`:
`Object.keys(oauthSwagger.paths).map(function(key) { return key.substring(1); })`. -/
def validTokenPathNames : List String :=
  (assocKeys oauthSwagger.paths).map (fun k => k.drop 1)

/- ### importOAuth -/

/-- Errors thrown by `importOAuth` (`throw new Error(...)`). -/
inductive ImportError where
  | pathsCollision (existing : List String)
  | definitionsCollision (existing : List SchemaDef)
  | invalidTokenPath (name : String) (validNames : List String)
deriving DecidableEq, Repr

/-- JS strict equality between a stored `allPaths` value and the probe string
of `_.contains(allPaths, path)`: underscore's `contains` on an object checks
the probe against the object's VALUES with `===`; every value here is a
path-item object or `undefined`, never strictly equal to a string, so the
comparison is false for every entry. -/
def pathValueEqString (_v : Option PathItem) (_s : String) : Bool :=
  false

/-- JS strict equality between a stored definition value and a key string:
`_.filter(allDefinitions, function(key) ...)` passes each entry's VALUE as
`key`, and `_.contains(Object.keys(oauthSwagger.definitions), key)` compares
that schema object against key strings with `===`, which is false across
types. -/
def schemaEqString (_v : SchemaDef) (_s : String) : Bool :=
  false

/-- The `existingPaths` computation of `importOAuth`:
`_.filter(paths, function(path) { return _.contains(allPaths, path); })`. -/
def existingPathsCheck (paths : JsPaths)
    (allPaths : List (String × Option PathItem)) : List String :=
  paths.values.filter (fun p => (assocValues allPaths).any (fun v => pathValueEqString v p))

/-- The `existingDefinitions` computation of `importOAuth`:
`_.filter(allDefinitions, function(key) { return _.contains(Object.keys(oauthSwagger.definitions), key); })`. -/
def existingDefinitionsCheck (allDefinitions : List (String × SchemaDef)) : List SchemaDef :=
  (assocValues allDefinitions).filter
    (fun v => (assocKeys oauthSwagger.definitions).any (fun k => schemaEqString v k))

/-- Tagging `allPaths[path][OAUTH_PROP] = resourceName`. -/
def tagOauth (t : PathItem) (resourceName : String) : PathItem :=
  { t with oauthService := some resourceName }

/-- The `_.each(paths, ...)` loop of `importOAuth` that installs the token
paths. Each iteration first assigns `allPaths[path] = oauthSwagger.paths['/' + name]`
(creating the key even when the lookup is `undefined`), then throws if the
assigned value is falsy, otherwise tags it with the owning resource name.
A throw aborts the loop, leaving the mutations made so far in place. -/
def addTokenPaths (resourceName : String) :
    List (String × String) → List (String × Option PathItem) →
    Option ImportError × List (String × Option PathItem)
  | [], allPaths => (none, allPaths)
  | (path, name) :: rest, allPaths =>
    match lookupAssoc oauthSwagger.paths ("/" ++ name) with
    | none =>
      (some (.invalidTokenPath name validTokenPathNames), setAssoc allPaths path none)
    | some t =>
      addTokenPaths resourceName rest
        (setAssoc allPaths path (some (tagOauth t resourceName)))

/-- The final `_.each(oauthSwagger.definitions, ...)` copy of `importOAuth`. -/
def copyTemplateDefinitions (allDefinitions : List (String × SchemaDef)) :
    List (String × SchemaDef) :=
  oauthSwagger.definitions.foldl (fun acc kv => setAssoc acc kv.1 kv.2) allDefinitions

/-- `importOAuth(resourceName, paths)`: injects the flow endpoints of the
bundled template document into the (module-global) swagger specification.
Returns the thrown error, if any, together with the specification as left
behind — the source mutates `swagger` in place, so mutations made before a
throw persist. -/
def importOAuth (resourceName : String) (paths : JsPaths) (sw : Swagger) :
    Option ImportError × Swagger :=
  if paths.lengthIsZero then (none, sw)
  else
    let allPaths := sw.paths.getD []
    let allDefinitions := sw.definitions.getD []
    let sw1 : Swagger :=
      { sw with paths := some allPaths, definitions := some allDefinitions }
    let existingPaths := existingPathsCheck paths allPaths
    if existingPaths.length > 0 then (some (.pathsCollision existingPaths), sw1)
    else
      let existingDefinitions := existingDefinitionsCheck allDefinitions
      if existingDefinitions.length > 0 then
        (some (.definitionsCollision existingDefinitions), sw1)
      else
        match addTokenPaths resourceName paths.eachPairs allPaths with
        | (some e, allPaths1) => (some e, { sw1 with paths := some allPaths1 })
        | (none, allPaths1) =>
          (none, { sw1 with
                    paths := some allPaths1,
                    definitions := some (copyTemplateDefinitions allDefinitions) })

/- ### createResources (Security Resource Registry) -/

/-- Instantiation of one declared service: the options are processed
(`passwordCheck`, when present, is replaced by the helper resolved via
`helpers.getHelperFunction(serviceName + ' passwordCheck', ref)`), then the
provider is invoked with them. Provider loading (`require`) and
`module.create` are external collaborators; the created resource is
modelled as the deterministic record of provider and processed options. -/
def createService (serviceName : String) (sd : ServiceDef) : Service :=
  { provider := sd.provider
  , passwordCheck :=
      sd.options.passwordCheck.map (fun r => .resolved (serviceName ++ " passwordCheck") r)
  , tokenPaths := sd.options.tokenPaths
  , validGrantTypes := sd.options.validGrantTypes }

/-- One `_.each(swagger[serviceDefNameTuple], ...)` pass of `createResources`:
for each declaration, create the service, run `importOAuth` when the options
carry a (truthy, i.e. present) `tokenPaths`, then register the service under
its name — `services[serviceName] = service`, which silently overwrites any
entry registered earlier under the same name. A thrown `importOAuth` error
propagates out. -/
def registerServices : List (String × ServiceDef) →
    List (String × Service) → Swagger →
    Except ImportError (List (String × Service) × Swagger)
  | [], services, sw => .ok (services, sw)
  | (name, sd) :: rest, services, sw =>
    let service := createService name sd
    match sd.options.tokenPaths with
    | none => registerServices rest (setAssoc services name service) sw
    | some tp =>
      match importOAuth name tp sw with
      | (some e, _) => .error e
      | (none, sw1) => registerServices rest (setAssoc services name service) sw1

/-- `createResources()`: processes the two `SERVICES` keys in their fixed
order (`x-a127-services` first, then `x-volos-resources`) over one shared
`services` map and the shared, in-place-mutated swagger object. -/
def createResources (sw : Swagger) :
    Except ImportError (List (String × Service) × Swagger) :=
  match registerServices sw.a127Services [] sw with
  | .error e => .error e
  | .ok (services1, sw1) =>
    registerServices sw1.volosResources services1 sw1

/- ### Authorization chain builder -/

/-- A declared authorization requirement (`{scope: ...}`). -/
structure Authorization where
  scope : String
deriving DecidableEq, Repr

/-- An authorization-requirements mapping: resource name to requirement,
in declaration order. -/
abbrev AuthMap := List (String × Authorization)

/-- One step of an authorization chain. `authenticate` models
`oauth.connectMiddleware().authenticate(authorization.scope)` for the
resource registered under the given name; `attachResources` models the
terminal `addResourcesToRequestMW()` middleware that sets `req.volos`. -/
inductive ChainStep where
  | authenticate (resourceName : String) (scope : String)
  | attachResources
deriving DecidableEq, Repr

/-- An authorization chain, `helpers.chain(middlewares)`: `helpers.js` is not
under `src/`; per the spec it composes the middlewares into a single ordered
chain, so the chain is modelled by its ordered list of steps. -/
abbrev AuthChain := List ChainStep

/-- The `operation.volos` slot (lazy memoization slot for the chain). -/
structure VolosSlot where
  authChain : Option AuthChain
deriving DecidableEq, Repr

/-- An operation node of the specification, with its two per-operation
authorization-declaration properties and the mutable `volos` cache slot. -/
structure Operation where
  operationId : String
  a127Auth : Option AuthMap
  volosAuth : Option AuthMap
  volos : Option VolosSlot
deriving DecidableEq, Repr

/-- The containing path item as seen through `req.swagger.path`, carrying the
two per-path authorization-declaration properties. -/
structure SwagPath where
  a127Auth : Option AuthMap
  volosAuth : Option AuthMap
deriving DecidableEq, Repr

/-- The `req.swagger` metadata attached by the routing layer. -/
structure SwaggerMeta where
  operation : Option Operation
  path : SwagPath
  swaggerObject : Option Swagger
deriving DecidableEq, Repr

/-- A request. `headersAuthorization` is `request.headers.authorization`;
`token` is the `request.token` slot written by the security handler. -/
structure Request where
  reqPath : String
  swagger : Option SwaggerMeta
  headersAuthorization : Option String
  token : Option String
deriving DecidableEq, Repr

/-- Errors thrown while building a chain. The only throw site is the JS
runtime itself: `resourcesMap[name]` being `undefined` makes
`oauth.connectMiddleware()` raise a `TypeError` whose message names the
dereferenced property, not the resource or the operation. -/
inductive BuildError where
  | typeError (message : String)
deriving DecidableEq, Repr

/-- The fixed JS runtime message raised when `resourcesMap[name]` is
`undefined` and `.connectMiddleware()` is called on it. -/
def undefinedDerefMsg : String :=
  "TypeError: Cannot read property \x27connectMiddleware\x27 of undefined"

/-- The authorization-requirements lookup of `ifAuthenticated`:
`operation[A127_AUTH] || req.swagger.path[A127_AUTH] || operation[VOLOS_AUTH] || req.swagger.path[VOLOS_AUTH]`.
JS `||` falls through only on a falsy operand; a declared mapping is an
object and objects are truthy even when empty, so only an absent
declaration falls through. -/
def selectAuthorizations (operation : Operation) (p : SwagPath) : Option AuthMap :=
  jsOr (jsOr (jsOr operation.a127Auth p.a127Auth) operation.volosAuth) p.volosAuth

/-- The `_.each(authorizations, ...)` loop of `ifAuthenticated`: for each
`(name, authorization)` pair in declaration order, look the resource up in
`resourcesMap` and push its `connectMiddleware().authenticate(scope)` step.
An absent resource makes the dereference throw, aborting the whole build. -/
def buildAuthSteps (resourcesMap : List (String × Service)) :
    AuthMap → Except BuildError (List ChainStep)
  | [] => .ok []
  | (name, a) :: rest =>
    match lookupAssoc resourcesMap name with
    | none => .error (.typeError undefinedDerefMsg)
    | some _ =>
      match buildAuthSteps resourcesMap rest with
      | .error e => .error e
      | .ok steps => .ok (.authenticate name a.scope :: steps)

/-- `ifAuthenticated(req, res, next)` up to the invocation of the chain:
returns the chain that runs for the request together with the request as
left behind (the operation inside `req.swagger` carries the installed cache
slot after a first build). The function reads the module-global
`resourcesMap` and never assigns the module globals, so the registry is a
read-only parameter and the specification is untouched by construction.
On a cache hit the cached chain is returned with no writes at all. -/
def ifAuthenticated (resourcesMap : List (String × Service)) (req : Request) :
    Except BuildError (AuthChain × Request) :=
  match req.swagger with
  | none => .error (.typeError undefinedDerefMsg)
  | some meta =>
    match meta.operation with
    | none => .error (.typeError undefinedDerefMsg)
    | some operation =>
      match operation.volos.bind (fun v => v.authChain) with
      | some chain => .ok (chain, req)
      | none =>
        let authorizations := selectAuthorizations operation meta.path
        match buildAuthSteps resourcesMap (authorizations.getD []) with
        | .error e => .error e
        | .ok steps =>
          let chain := steps ++ [ChainStep.attachResources]
          let operation1 := { operation with volos := some { authChain := some chain } }
          .ok (chain, { req with swagger := some { meta with operation := some operation1 } })

/- ### swaggerSecurityHandlers -/

/-- Security declaration passed to a swagger security handler. -/
structure SecurityDefinition where
  type : String
deriving DecidableEq, Repr

/-- Outcome of one invocation of a swagger security handler: the argument the
callback received (`none` models `cb()` with no error), the request as left
behind, and whether the resource's `verifyToken` entry point was invoked
(recorded so that "without consulting the resource" is statable). -/
structure HandlerResult where
  cbError : Option String
  request : Request
  verifyInvoked : Bool
deriving DecidableEq, Repr

/-- `SwaggerSecurityHandler(oauth)` applied to `(request, securityDefinition,
scopes, cb)`. The resource's `verifyToken(credential, scopes, callback)`
capability is passed as a function returning either an error or a verified
token result. If the declaration's `type` is not the literal `oauth2` the
handler returns `cb()` immediately — the callback receives NO error — and
the resource is never consulted. Otherwise it delegates to `verifyToken`
with `request.headers.authorization` and the scopes; on error the callback
receives the error, on success `request.token` is set to the result before
`cb()`. -/
def SwaggerSecurityHandler
    (verifyToken : Option String → List String → Except String String)
    (request : Request) (securityDefinition : SecurityDefinition)
    (scopes : List String) : HandlerResult :=
  if securityDefinition.type ≠ "oauth2" then
    { cbError := none, request := request, verifyInvoked := false }
  else
    match verifyToken request.headersAuthorization scopes with
    | .error err => { cbError := some err, request := request, verifyInvoked := true }
    | .ok result =>
      { cbError := none, request := { request with token := some result }, verifyInvoked := true }

/-- The derivation in `swaggerSecurityHandlers()`: a handler is created for
exactly the registered resources exposing `validGrantTypes` (the oauth-only
flow capability). -/
def swaggerSecurityHandlerNames (resourcesMap : List (String × Service)) : List String :=
  (resourcesMap.filter (fun kv => kv.2.validGrantTypes.isSome)).map (fun kv => kv.1)

/- ### the middleware function -/

/-- Module-global state of `auth-middleware.js`: the `swagger` and
`resourcesMap` variables. -/
structure ModuleState where
  swagger : Option Swagger
  resourcesMap : List (String × Service)
deriving DecidableEq, Repr

/-- Errors escaping the middleware function. -/
inductive MwError where
  | load (e : ImportError)
  | build (e : BuildError)
deriving DecidableEq, Repr

/-- Observable outcome of one invocation of the constructed middleware:
control passed to `next()` untouched, or an authorization chain resolved and
invoked for the request, or an exception. -/
inductive MwOutcome where
  | nextCalled
  | chainInvoked (chain : AuthChain)
  | failed (e : MwError)
deriving DecidableEq, Repr

/-- `setSwagger(swaggerObject)`: a truthy argument replaces the module-global
`swagger` and rebuilds `resourcesMap` via `createResources()` (which also
mutates the swagger object in place through `importOAuth`). -/
def setSwagger (swaggerObject : Option Swagger) (st : ModuleState) :
    Except ImportError ModuleState :=
  match swaggerObject with
  | none => .ok st
  | some sw =>
    match createResources sw with
    | .error e => .error e
    | .ok (services, sw1) => .ok { swagger := some sw1, resourcesMap := services }

/-- The `mwFunction(req, res, next)` closure returned by `middleware`:
requests without swagger metadata or without a resolved operation are passed
straight to `next()`; otherwise the module swagger is lazily initialized
from `req.swagger.swaggerObject` when still unset, and `ifAuthenticated`
resolves and invokes the chain. -/
def mwFunction (st : ModuleState) (req : Request) :
    MwOutcome × ModuleState × Request :=
  match req.swagger with
  | none => (.nextCalled, st, req)
  | some meta =>
    match meta.operation with
    | none => (.nextCalled, st, req)
    | some _ =>
      match (if st.swagger.isNone then setSwagger meta.swaggerObject st else .ok st) with
      | .error e => (.failed (.load e), st, req)
      | .ok st1 =>
        match ifAuthenticated st1.resourcesMap req with
        | .error e => (.failed (.build e), st1, req)
        | .ok (chain, req1) => (.chainInvoked chain, st1, req1)

/- ### Helper lemmas -/

theorem lookupAssoc_setAssoc_self {α : Type} (l : List (String × α)) (k : String) (v : α) :
    lookupAssoc (setAssoc l k v) k = some v := by
  induction l with
  | nil => simp [setAssoc, lookupAssoc]
  | cons hd tl ih =>
    obtain ⟨k0, v0⟩ := hd
    by_cases h : k0 = k
    · simp [setAssoc, lookupAssoc, h]
    · simp [setAssoc, lookupAssoc, h, ih]

theorem lookupAssoc_setAssoc_ne {α : Type} (l : List (String × α)) (k k1 : String) (v : α)
    (h : k1 ≠ k) : lookupAssoc (setAssoc l k v) k1 = lookupAssoc l k1 := by
  induction l with
  | nil => simp [setAssoc, lookupAssoc, Ne.symm h]
  | cons hd tl ih =>
    obtain ⟨k0, v0⟩ := hd
    by_cases h0 : k0 = k
    · subst h0
      simp [setAssoc, lookupAssoc, Ne.symm h]
    · by_cases h1 : k0 = k1 <;> simp [setAssoc, lookupAssoc, h0, h1, h, ih]

/-- The path-collision check of `importOAuth` can never report anything:
it compares the requested path strings against the VALUES of `allPaths`
with JS strict equality. -/
theorem existingPathsCheck_eq_nil (paths : JsPaths)
    (allPaths : List (String × Option PathItem)) :
    existingPathsCheck paths allPaths = [] := by
  simp [existingPathsCheck, pathValueEqString]

/-- The definition-collision check of `importOAuth` can never report
anything: it compares the VALUES of `allDefinitions` against the template's
key strings with JS strict equality. -/
theorem existingDefinitionsCheck_eq_nil (allDefinitions : List (String × SchemaDef)) :
    existingDefinitionsCheck allDefinitions = [] := by
  simp [existingDefinitionsCheck, schemaEqString]

/-- Unfolding of `importOAuth` on an object-form `tokenPaths`: the length
check and both collision checks never fire, so the call is the token-path
loop followed (on success) by the unconditional definitions copy. -/
theorem importOAuth_obj (r : String) (entries : List (String × String)) (sw : Swagger) :
    importOAuth r (JsPaths.obj entries) sw =
      match addTokenPaths r (entries.map (fun kv => (kv.2, kv.1))) (sw.paths.getD []) with
      | (some e, ap1) =>
        (some e, { sw with paths := some ap1, definitions := some (sw.definitions.getD []) })
      | (none, ap1) =>
        (none,
          { sw with
            paths := some ap1,
            definitions := some (copyTemplateDefinitions (sw.definitions.getD [])) }) := by
  simp [importOAuth, JsPaths.lengthIsZero, existingPathsCheck_eq_nil,
    existingDefinitionsCheck_eq_nil, JsPaths.eachPairs]

/- ### Claim theorems -/

/-- C2: the authorization-requirements mapping used by the chain builder is
chosen by the fixed priority order — operation-level current-style
(`x-a127-authorizations`) declaration if present, else the containing
path's current-style declaration, else the operation-level legacy-style
(`x-volos-authorizations`) declaration, else the path-level legacy-style
declaration. A present earlier source is terminal even when it is an
explicitly empty mapping (`m` below ranges over all mappings, including
`[]`); only an absent source falls through. -/
theorem auth_requirements_priority :
    (∀ (operation : Operation) (p : SwagPath) (m : AuthMap),
      operation.a127Auth = some m → selectAuthorizations operation p = some m) ∧
    (∀ (operation : Operation) (p : SwagPath) (m : AuthMap),
      operation.a127Auth = none → p.a127Auth = some m →
      selectAuthorizations operation p = some m) ∧
    (∀ (operation : Operation) (p : SwagPath) (m : AuthMap),
      operation.a127Auth = none → p.a127Auth = none → operation.volosAuth = some m →
      selectAuthorizations operation p = some m) ∧
    (∀ (operation : Operation) (p : SwagPath),
      operation.a127Auth = none → p.a127Auth = none → operation.volosAuth = none →
      selectAuthorizations operation p = p.volosAuth) := by
  refine ⟨?_, ?_, ?_, ?_⟩ <;> intros <;> simp [selectAuthorizations, jsOr, *]

/-- Operation for the C2 witness: an explicitly empty operation-level
current-style mapping, with all three lower-priority declarations present
and non-empty. -/
def opW2 : Operation :=
  { operationId := "getOrders"
  , a127Auth := some []
  , volosAuth := some [("oauth", { scope := "legacy" })]
  , volos := none }

/-- Path declarations for the C2 witness. -/
def pW2 : SwagPath :=
  { a127Auth := some [("oauth", { scope := "pathScope" })]
  , volosAuth := some [("oauth", { scope := "legacyPath" })] }

/-- Witness for C2: the explicitly empty operation-level current-style
mapping is terminal over all later, non-empty sources. -/
theorem auth_requirements_priority_witness :
    selectAuthorizations opW2 pW2 = some [] :=
  auth_requirements_priority.1 opW2 pW2 [] rfl

/-- Specification for the C3 failing input: the target path `/tok` already
exists in `paths` and the data-shape name `TokenResponse` already exists in
`definitions`. -/
def swC3 : Swagger :=
  { a127Services := []
  , volosResources := []
  , paths := some [("/tok", some { opsId := "existing:tok", oauthService := none })]
  , definitions := some [("TokenResponse", { schemaId := "existing:TokenResponse" })] }

/-- C3 (code bug): injecting the `token` flow endpoint at the already-present
path `/tok` into a specification that also already has a `TokenResponse`
definition raises NO error and silently overwrites both the existing path
item and the existing definition. The source's two collision checks are dead
code: `_.contains(allPaths, path)` and the `_.filter(allDefinitions, ...)`
predicate both compare against object VALUES with JS strict equality, which
never matches a key string, so the `Paths ... already exist` and
`Definitions ... already exist` throws are unreachable, contradicting their
own error messages and the claimed abort-before-mutation behavior. -/
theorem collision_checks_never_fire :
    importOAuth "oauth" (JsPaths.obj [("token", "/tok")]) swC3 =
      (none,
        { swC3 with
          paths := some [("/tok", some { opsId := "template:token", oauthService := some "oauth" })],
          definitions := some
            [ ("TokenResponse", { schemaId := "template:TokenResponse" })
            , ("ErrorResult", { schemaId := "template:ErrorResult" }) ] }) := by
  rfl

/-- Specification for the C6 failing input: the resource name `auth` is
declared both under the higher-priority `x-a127-services` key and under the
lower-priority `x-volos-resources` key, with different providers. -/
def swC6 : Swagger :=
  { a127Services :=
      [("auth", { provider := "volos-oauth-apigee"
                , options := { passwordCheck := none, tokenPaths := none, validGrantTypes := none } })]
  , volosResources :=
      [("auth", { provider := "volos-oauth-redis"
                , options := { passwordCheck := none, tokenPaths := none, validGrantTypes := none } })]
  , paths := some []
  , definitions := some [] }

/-- C6 (code bug): registry construction processes `x-a127-services` first
and `x-volos-resources` second over one shared map with plain
`services[serviceName] = service` assignment, so the later declaration from
the lower-priority key silently overwrites the earlier one: the completed
registry maps `auth` to the `volos-oauth-redis` declaration, and the
`volos-oauth-apigee` resource instance is silently dropped. -/
theorem lower_priority_key_shadows :
    createResources swC6 =
      .ok ([("auth", { provider := "volos-oauth-redis", passwordCheck := none
                     , tokenPaths := none, validGrantTypes := none })], swC6) := by
  rfl

/-- Specification for the C9 counterexample: empty `paths` and
`definitions` maps. -/
def swC9 : Swagger :=
  { a127Services := [], volosResources := [], paths := some [], definitions := some [] }

/-- Counterexample for C9: injecting an EMPTY object-form collection of
endpoint names is not a no-op. The early return tests `paths.length === 0`,
and an object's `length` is `undefined`, so the check does not fire; the
loop adds no paths, but every template data-shape definition is still
copied into `specification.definitions`. -/
theorem empty_mapping_copies_definitions_cex :
    importOAuth "oauth" (JsPaths.obj []) swC9 ≠ (none, swC9) ∧
    (importOAuth "oauth" (JsPaths.obj []) swC9).2.definitions =
      some [ ("TokenResponse", { schemaId := "template:TokenResponse" })
           , ("ErrorResult", { schemaId := "template:ErrorResult" }) ] ∧
    swC9.definitions = some [] := by
  refine ⟨?_, rfl, rfl⟩
  decide

/-- C9 (amended): an empty ARRAY of endpoint names is a genuine no-op — the
`paths.length === 0` early return fires before any mutation and no error is
raised. An empty object-form mapping is NOT early-returned (an object has no
`length`): no endpoint paths are added and no error is raised, but the
`paths`/`definitions` containers are created if absent and all template
data-shape definitions are copied into `specification.definitions`. -/
theorem empty_endpoint_collection_behavior :
    (∀ (r : String) (sw : Swagger), importOAuth r (JsPaths.arr []) sw = (none, sw)) ∧
    (∀ (r : String) (sw : Swagger),
      importOAuth r (JsPaths.obj []) sw =
        (none,
          { sw with
            paths := some (sw.paths.getD []),
            definitions := some (copyTemplateDefinitions (sw.definitions.getD [])) })) := by
  constructor
  · intro r sw; rfl
  · intro r sw
    rw [importOAuth_obj]
    simp [addTokenPaths]

/-- Module state for the C10 witness. -/
def stW10 : ModuleState := { swagger := none, resourcesMap := [] }

/-- Request for the C10 witness: carries no swagger metadata at all. -/
def reqW10 : Request :=
  { reqPath := "/orders", swagger := none, headersAuthorization := none, token := none }

/-- C10: a request whose context carries no matched operation — no swagger
metadata, or metadata without a resolved operation — is passed straight to
`next()`: the outcome is `nextCalled`, no chain is resolved or invoked, and
both the module state (specification and registry) and the request are
returned untouched. -/
theorem no_operation_bypasses_auth (st : ModuleState) (req : Request)
    (h : req.swagger = none ∨
      ∃ meta, req.swagger = some meta ∧ meta.operation = none) :
    mwFunction st req = (.nextCalled, st, req) := by
  rcases h with h | ⟨meta, hm, ho⟩
  · simp [mwFunction, h]
  · simp [mwFunction, hm, ho]

/-- Witness for C10 at a concrete request without swagger metadata. -/
theorem no_operation_bypasses_auth_witness :
    mwFunction stW10 reqW10 = (.nextCalled, stW10, reqW10) :=
  no_operation_bypasses_auth stW10 reqW10 (Or.inl rfl)

/-- Request for the C8 counterexample. -/
def reqC8 : Request :=
  { reqPath := "/orders", swagger := none
  , headersAuthorization := some "Bearer tok", token := none }

/-- Verification capability for the C8 counterexample: every credential is
invalid, so a consulted resource would reject. -/
def vtC8 : Option String → List String → Except String String :=
  fun _ _ => .error "invalid_token"

/-- Counterexample for C8: with a security declaration whose `type` is
`basic` (not the expected `oauth2` scheme), the handler invokes the callback
with NO error — `return cb()` — so the request is not rejected, even though
the resource (which would have rejected the credential) is never consulted.
The claim's "rejects immediately" is therefore false: the handler passes the
request through without any verification. -/
theorem wrong_scheme_not_rejected_cex :
    (SwaggerSecurityHandler vtC8 reqC8 { type := "basic" } ["read"]).cbError = none ∧
    (SwaggerSecurityHandler vtC8 reqC8 { type := "basic" } ["read"]).verifyInvoked = false ∧
    (SwaggerSecurityHandler vtC8 reqC8 { type := "basic" } ["read"]).request = reqC8 := by
  refine ⟨rfl, rfl, rfl⟩

/-- C8 (amended): for every derived security handler and every invocation —
if `securityDeclaration.type` is not `oauth2` the handler immediately
invokes the callback with NO error and without consulting the resource's
verification entry point (it skips verification rather than rejecting);
otherwise it delegates to the resource's `verifyToken` with the request's
authorization credential and the required scopes, and on success attaches
the verification result as `request.token` before invoking the callback
with no error, while on verification failure the callback receives the
error and the request is unchanged. -/
theorem security_handler_contract
    (vt : Option String → List String → Except String String)
    (request : Request) (d : SecurityDefinition) (scopes : List String) :
    (d.type ≠ "oauth2" →
      SwaggerSecurityHandler vt request d scopes =
        { cbError := none, request := request, verifyInvoked := false }) ∧
    (∀ res, d.type = "oauth2" → vt request.headersAuthorization scopes = .ok res →
      SwaggerSecurityHandler vt request d scopes =
        { cbError := none, request := { request with token := some res }
        , verifyInvoked := true }) ∧
    (∀ err, d.type = "oauth2" → vt request.headersAuthorization scopes = .error err →
      SwaggerSecurityHandler vt request d scopes =
        { cbError := some err, request := request, verifyInvoked := true }) := by
  refine ⟨?_, ?_, ?_⟩
  · intro h
    simp [SwaggerSecurityHandler, h]
  · intro res ht hv
    simp [SwaggerSecurityHandler, ht, hv]
  · intro err ht hv
    simp [SwaggerSecurityHandler, ht, hv]

/-- Verification capability for the C8 witness: accepts and yields a token
context. -/
def vtW8 : Option String → List String → Except String String :=
  fun _ _ => .ok "verified:tok"

/-- Witness for C8 at a concrete `oauth2` invocation: delegation succeeds
and the result is attached to the request. -/
theorem security_handler_contract_witness :
    SwaggerSecurityHandler vtW8 reqC8 { type := "oauth2" } ["read"] =
      { cbError := none, request := { reqC8 with token := some "verified:tok" }
      , verifyInvoked := true } :=
  (security_handler_contract vtW8 reqC8 { type := "oauth2" } ["read"]).2.1
    "verified:tok" rfl rfl

/-- C1: chain resolution is memoized on the operation. First, for every
operation already carrying a cached chain, `ifAuthenticated` returns exactly
that chain with the request (hence the operation) unchanged — no rebuild and
no writes; the registry is a read-only parameter and the specification is
not consulted at all, so neither can be affected. Second, resolving twice
returns the identical chain the second time: whenever a resolution succeeds
with chain `c` and resulting request `req1`, resolving `req1` again yields
the same chain `c` and leaves `req1` unchanged. -/
theorem chain_resolution_memoized :
    (∀ (rm : List (String × Service)) (req : Request) (meta : SwaggerMeta)
        (operation : Operation) (c : AuthChain),
      req.swagger = some meta → meta.operation = some operation →
      operation.volos.bind (fun v => v.authChain) = some c →
      ifAuthenticated rm req = .ok (c, req)) ∧
    (∀ (rm : List (String × Service)) (req req1 : Request) (c : AuthChain),
      ifAuthenticated rm req = .ok (c, req1) →
      ifAuthenticated rm req1 = .ok (c, req1)) := by
  constructor
  · intro rm req meta operation c hm ho hc
    simp [ifAuthenticated, hm, ho, hc]
  · intro rm req req1 c h
    match hm : req.swagger with
    | none => simp [ifAuthenticated, hm] at h
    | some meta =>
      match ho : meta.operation with
      | none => simp [ifAuthenticated, hm, ho] at h
      | some operation =>
        match hc : operation.volos.bind (fun v => v.authChain) with
        | some chain =>
          rw [ifAuthenticated] at h
          simp [hm, ho, hc] at h
          obtain ⟨hc1, hr1⟩ := h
          subst hc1
          subst hr1
          simp [ifAuthenticated, hm, ho, hc]
        | none =>
          rw [ifAuthenticated] at h
          simp [hm, ho, hc] at h
          match hb : buildAuthSteps rm ((selectAuthorizations operation meta.path).getD []) with
          | .error e => simp [hb] at h
          | .ok steps =>
            simp [hb] at h
            obtain ⟨hc1, hr1⟩ := h
            subst hc1
            subst hr1
            simp [ifAuthenticated]

/-- Registry for the C1 witness. -/
def rmW1 : List (String × Service) := []

/-- A cached chain for the C1 witness. -/
def chainW1 : AuthChain :=
  [ChainStep.authenticate "oauth" "write", ChainStep.attachResources]

/-- Request for the C1 witness: its operation already carries a cached
chain. -/
def reqW1 : Request :=
  { reqPath := "/orders"
  , swagger := some
      { operation := some
          { operationId := "postOrders"
          , a127Auth := some [("oauth", { scope := "write" })]
          , volosAuth := none
          , volos := some { authChain := some chainW1 } }
      , path := { a127Auth := none, volosAuth := none }
      , swaggerObject := none }
  , headersAuthorization := none
  , token := none }

/-- Witness for C1: resolving the already-cached operation returns the
cached chain and the untouched request. -/
theorem chain_resolution_memoized_witness :
    ifAuthenticated rmW1 reqW1 = .ok (chainW1, reqW1) :=
  chain_resolution_memoized.1 rmW1 reqW1
    { operation := some
        { operationId := "postOrders"
        , a127Auth := some [("oauth", { scope := "write" })]
        , volosAuth := none
        , volos := some { authChain := some chainW1 } }
    , path := { a127Auth := none, volosAuth := none }
    , swaggerObject := none }
    { operationId := "postOrders"
    , a127Auth := some [("oauth", { scope := "write" })]
    , volosAuth := none
    , volos := some { authChain := some chainW1 } }
    chainW1 rfl rfl rfl

/-- Whether the second character list starts the first one. -/
def charsStartWith : List Char → List Char → Bool
  | _, [] => true
  | [], _ :: _ => false
  | c :: cs, d :: ds => c = d && charsStartWith cs ds

/-- Whether `sub` occurs somewhere inside the character list. -/
def charsContain (sub : List Char) : List Char → Bool
  | [] => sub.isEmpty
  | c :: rest => charsStartWith (c :: rest) sub || charsContain sub rest

/-- Whether `sub` occurs in `msg` as a substring — used to state that an
error message names, or fails to name, a resource or an operation. -/
def containsSubstring (msg sub : String) : Bool :=
  charsContain sub.data msg.data

/-- Shared lemma: if the chosen authorization mapping names some resource
that is absent from the registry, the chain-build loop throws the JS
`TypeError` from dereferencing `undefined` — the only throw site. -/
theorem buildAuthSteps_missing (rm : List (String × Service)) (l : AuthMap)
    (h : ∃ na ∈ l, lookupAssoc rm na.1 = none) :
    buildAuthSteps rm l = .error (.typeError undefinedDerefMsg) := by
  induction l with
  | nil =>
    obtain ⟨na, hmem, _⟩ := h
    cases hmem
  | cons hd tl ih =>
    obtain ⟨n0, a0⟩ := hd
    obtain ⟨na, hmem, hnone⟩ := h
    rcases List.mem_cons.mp hmem with heq | htl
    · subst heq
      simp [buildAuthSteps, hnone]
    · match hlk : lookupAssoc rm n0 with
      | none => simp [buildAuthSteps, hlk]
      | some s =>
        have hrest := ih ⟨na, htl, hnone⟩
        simp [buildAuthSteps, hlk, hrest]

/-- Registry for the C7 counterexample and witness: only `other` is
registered. -/
def rmC7 : List (String × Service) :=
  [("other", { provider := "volos-oauth-apigee", passwordCheck := none
             , tokenPaths := none, validGrantTypes := none })]

/-- Operation for the C7 counterexample: its current-style declaration
names the unregistered resource `missingResource`. -/
def opC7 : Operation :=
  { operationId := "getOrders"
  , a127Auth := some [("missingResource", { scope := "read" })]
  , volosAuth := none
  , volos := none }

/-- Request for the C7 counterexample. -/
def reqC7 : Request :=
  { reqPath := "/orders"
  , swagger := some
      { operation := some opC7
      , path := { a127Auth := none, volosAuth := none }
      , swaggerObject := none }
  , headersAuthorization := none
  , token := none }

/-- Counterexample for C7: first-time resolution for an operation whose
requirement names the absent resource `missingResource` does fail, but with
the generic JS `TypeError` from calling `.connectMiddleware()` on
`undefined` — a message that names NEITHER the absent resource NOR the
operation (`getOrders`), so no `UnknownResourceError` naming them is
raised. -/
theorem missing_resource_unnamed_error_cex :
    ifAuthenticated rmC7 reqC7 = .error (.typeError undefinedDerefMsg) ∧
    containsSubstring undefinedDerefMsg "missingResource" = false ∧
    containsSubstring undefinedDerefMsg "getOrders" = false := by
  refine ⟨rfl, ?_, ?_⟩ <;> decide

/-- C7 (amended): for every operation without a cached chain whose chosen
authorization-requirements mapping names some resource absent from the
registry, first-time chain resolution fails — lazily, at first use of the
operation, since registry construction never consults operation-level
authorization declarations — but with the generic JS runtime `TypeError`
raised by dereferencing the `undefined` registry lookup, one fixed message
for every input, not an `UnknownResourceError` naming the absent resource
and the operation. Nothing is cached by the failed resolution, so only the
failing request is affected. -/
theorem missing_resource_generic_type_error
    (rm : List (String × Service)) (req : Request) (meta : SwaggerMeta)
    (operation : Operation) (l : AuthMap)
    (hm : req.swagger = some meta) (ho : meta.operation = some operation)
    (hnc : operation.volos.bind (fun v => v.authChain) = none)
    (hsel : selectAuthorizations operation meta.path = some l)
    (hmiss : ∃ na ∈ l, lookupAssoc rm na.1 = none) :
    ifAuthenticated rm req = .error (.typeError undefinedDerefMsg) := by
  have hb := buildAuthSteps_missing rm l hmiss
  simp [ifAuthenticated, hm, ho, hnc, hsel, hb]

/-- Witness for C7 at a concrete misconfigured operation. -/
theorem missing_resource_generic_type_error_witness :
    ifAuthenticated rmC7 reqC7 = .error (.typeError undefinedDerefMsg) :=
  missing_resource_generic_type_error rmC7 reqC7
    { operation := some opC7
    , path := { a127Auth := none, volosAuth := none }
    , swaggerObject := none }
    opC7 [("missingResource", { scope := "read" })] rfl rfl rfl rfl
    ⟨("missingResource", { scope := "read" }), by simp, rfl⟩

/-- Shared lemma: if some requested pair's endpoint name has no template,
the token-path loop throws the invalid-token-path error listing the valid
names, for some offending requested name. -/
theorem addTokenPaths_unknown (r : String) (pairs : List (String × String))
    (ap : List (String × Option PathItem))
    (h : ∃ pn ∈ pairs, lookupAssoc oauthSwagger.paths ("/" ++ pn.2) = none) :
    ∃ n ap1,
      addTokenPaths r pairs ap = (some (.invalidTokenPath n validTokenPathNames), ap1) ∧
      lookupAssoc oauthSwagger.paths ("/" ++ n) = none ∧ ∃ p, (p, n) ∈ pairs := by
  induction pairs generalizing ap with
  | nil =>
    obtain ⟨pn, hmem, _⟩ := h
    cases hmem
  | cons hd tl ih =>
    obtain ⟨p0, n0⟩ := hd
    match hlk : lookupAssoc oauthSwagger.paths ("/" ++ n0) with
    | none =>
      refine ⟨n0, setAssoc ap p0 none, ?_, hlk, p0, List.mem_cons_self _ _⟩
      simp [addTokenPaths, hlk]
    | some t =>
      obtain ⟨pn, hmem, hnone⟩ := h
      rcases List.mem_cons.mp hmem with heq | htl
      · subst heq
        simp [hlk] at hnone
      · obtain ⟨n, ap1, heq, hn, p, hp⟩ :=
          ih (setAssoc ap p0 (some (tagOauth t r))) ⟨pn, htl, hnone⟩
        refine ⟨n, ap1, ?_, hn, p, List.mem_cons_of_mem _ hp⟩
        simp [addTokenPaths, hlk, heq]

/-- Specification for the C4 counterexample and witness: empty `paths` and
`definitions` maps. -/
def swC4 : Swagger :=
  { a127Services := [], volosResources := [], paths := some [], definitions := some [] }

/-- Counterexample for C4: injecting `{token: /a, bogus: /b}` — where
`token` has a template and `bogus` does not — raises the unknown-endpoint
error listing the valid names, but `specification.paths` is NOT left
unchanged: the valid endpoint `token` was already injected at `/a` (tagged
with the resource) before the error, and the failing assignment created the
key `/b` with an `undefined` value. Partial injection on failure does
occur. -/
theorem unknown_endpoint_partial_injection_cex :
    (importOAuth "oauth" (JsPaths.obj [("token", "/a"), ("bogus", "/b")]) swC4).1 =
      some (.invalidTokenPath "bogus" ["authorize", "token", "invalidate", "refresh"]) ∧
    (importOAuth "oauth" (JsPaths.obj [("token", "/a"), ("bogus", "/b")]) swC4).2.paths =
      some [ ("/a", some { opsId := "template:token", oauthService := some "oauth" })
           , ("/b", none) ] ∧
    swC4.paths = some [] := by
  refine ⟨rfl, rfl, rfl⟩

/-- C4 (amended): for every flow-endpoint injection (object-form mapping)
requesting some endpoint name with no corresponding template in the bundled
flow-template document, the injection fails with an error naming an
offending requested endpoint and listing all valid endpoint names; however,
mutations performed before the failing name is reached — endpoints earlier
in iteration order, and the creation of the failing target-path key — are
not rolled back, so `specification.paths` can be partially mutated when the
error is raised (only the template definitions copy, which runs after the
whole loop, is guaranteed not to have happened). -/
theorem unknown_endpoint_lists_valid_names (r : String)
    (entries : List (String × String)) (sw : Swagger)
    (h : ∃ np ∈ entries, lookupAssoc oauthSwagger.paths ("/" ++ np.1) = none) :
    ∃ n, (importOAuth r (JsPaths.obj entries) sw).1 =
        some (.invalidTokenPath n validTokenPathNames) ∧
      lookupAssoc oauthSwagger.paths ("/" ++ n) = none ∧
      ∃ p, (n, p) ∈ entries := by
  obtain ⟨np, hmem, hnone⟩ := h
  have hpairs : ∃ pn ∈ entries.map (fun kv => (kv.2, kv.1)),
      lookupAssoc oauthSwagger.paths ("/" ++ pn.2) = none := by
    refine ⟨(np.2, np.1), List.mem_map_of_mem _ hmem, hnone⟩
  obtain ⟨n, ap1, heq, hn, p, hp⟩ :=
    addTokenPaths_unknown r (entries.map (fun kv => (kv.2, kv.1))) (sw.paths.getD []) hpairs
  refine ⟨n, ?_, hn, ?_⟩
  · rw [importOAuth_obj, heq]
  · obtain ⟨kv, hkv, hkveq⟩ := List.mem_map.mp hp
    obtain ⟨h1, h2⟩ := Prod.mk.injEq .. ▸ hkveq
    exact ⟨p, by
      have : kv = (n, p) := by
        obtain ⟨a, b⟩ := kv
        simp only [Prod.mk.injEq] at hkveq
        simp [hkveq.1, hkveq.2]
      exact this ▸ hkv⟩

/-- Witness for C4 at a concrete request of the unknown endpoint `bogus`. -/
theorem unknown_endpoint_lists_valid_names_witness :
    ∃ n, (importOAuth "oauth" (JsPaths.obj [("bogus", "/b")]) swC4).1 =
        some (ImportError.invalidTokenPath n validTokenPathNames) ∧
      lookupAssoc oauthSwagger.paths ("/" ++ n) = none ∧
      ∃ p, (n, p) ∈ [("bogus", "/b")] :=
  unknown_endpoint_lists_valid_names "oauth" [("bogus", "/b")] swC4
    ⟨("bogus", "/b"), by simp, by decide⟩

/-- Shared lemma: when every requested pair's endpoint name has a template
and the target paths are distinct, the token-path loop succeeds, installs
each tagged template at its target path, and touches no other key. -/
theorem addTokenPaths_ok (r : String) (pairs : List (String × String))
    (ap : List (String × Option PathItem))
    (hvalid : ∀ pn ∈ pairs, (lookupAssoc oauthSwagger.paths ("/" ++ pn.2)).isSome)
    (hnodup : (pairs.map (fun pn => pn.1)).Nodup) :
    (addTokenPaths r pairs ap).1 = none ∧
    (∀ p n t, (p, n) ∈ pairs → lookupAssoc oauthSwagger.paths ("/" ++ n) = some t →
      lookupAssoc (addTokenPaths r pairs ap).2 p = some (some (tagOauth t r))) ∧
    (∀ k, k ∉ pairs.map (fun pn => pn.1) →
      lookupAssoc (addTokenPaths r pairs ap).2 k = lookupAssoc ap k) := by
  induction pairs generalizing ap with
  | nil =>
    refine ⟨rfl, ?_, ?_⟩
    · intro p n t hmem
      cases hmem
    · intro k _
      rfl
  | cons hd tl ih =>
    obtain ⟨p0, n0⟩ := hd
    have hv0 := hvalid (p0, n0) (List.mem_cons_self _ _)
    match hlk : lookupAssoc oauthSwagger.paths ("/" ++ n0) with
    | none =>
      rw [hlk] at hv0
      simp at hv0
    | some t0 =>
      rw [List.map_cons] at hnodup
      have hcons := List.nodup_cons.mp hnodup
      have hvalid1 : ∀ pn ∈ tl, (lookupAssoc oauthSwagger.paths ("/" ++ pn.2)).isSome :=
        fun pn hm => hvalid pn (List.mem_cons_of_mem _ hm)
      obtain ⟨ih1, ih2, ih3⟩ :=
        ih (setAssoc ap p0 (some (tagOauth t0 r))) hvalid1 hcons.2
      have hstep : addTokenPaths r ((p0, n0) :: tl) ap =
          addTokenPaths r tl (setAssoc ap p0 (some (tagOauth t0 r))) := by
        simp [addTokenPaths, hlk]
      rw [hstep]
      refine ⟨ih1, ?_, ?_⟩
      · intro p n t hmem hlkt
        rcases List.mem_cons.mp hmem with heq | htl
        · obtain ⟨hp, hn⟩ := Prod.mk.injEq .. ▸ heq
          subst hp
          subst hn
          rw [hlkt] at hlk
          obtain rfl := (Option.some.injEq .. ▸ hlk)
          rw [ih3 p hcons.1]
          exact lookupAssoc_setAssoc_self ap p _
        · exact ih2 p n t htl hlkt
      · intro k hk
        have hk1 : k ≠ p0 ∧ k ∉ tl.map (fun pn => pn.1) := by
          simpa using hk
        rw [ih3 k hk1.2]
        exact lookupAssoc_setAssoc_ne ap p0 k _ hk1.1

/-- C5: every successful flow-endpoint injection (all requested endpoint
names known, distinct target paths, no collisions with existing paths or
definitions) copies each requested endpoint's template path-item into
`specification.paths` at its target path, tagged with the owning resource's
name via `x-volos-oauth-service`, and copies every data-shape definition of
the template document into `specification.definitions`. -/
theorem successful_injection_copies_templates (r : String)
    (entries : List (String × String)) (sw : Swagger)
    (hvalid : ∀ np ∈ entries, (lookupAssoc oauthSwagger.paths ("/" ++ np.1)).isSome)
    (hnodup : (entries.map (fun np => np.2)).Nodup)
    (_hfresh : ∀ np ∈ entries, lookupAssoc (sw.paths.getD []) np.2 = none)
    (_hdeffresh : ∀ k ∈ assocKeys oauthSwagger.definitions,
      lookupAssoc (sw.definitions.getD []) k = none) :
    (importOAuth r (JsPaths.obj entries) sw).1 = none ∧
    (∀ n p t, (n, p) ∈ entries → lookupAssoc oauthSwagger.paths ("/" ++ n) = some t →
      lookupAssoc ((importOAuth r (JsPaths.obj entries) sw).2.paths.getD []) p =
        some (some (tagOauth t r))) ∧
    (∀ k v, (k, v) ∈ oauthSwagger.definitions →
      lookupAssoc ((importOAuth r (JsPaths.obj entries) sw).2.definitions.getD []) k =
        some v) := by
  have hvalid1 : ∀ pn ∈ entries.map (fun kv => (kv.2, kv.1)),
      (lookupAssoc oauthSwagger.paths ("/" ++ pn.2)).isSome := by
    intro pn hm
    obtain ⟨kv, hkv, hkveq⟩ := List.mem_map.mp hm
    subst hkveq
    exact hvalid kv hkv
  have hnodup1 : ((entries.map (fun kv => (kv.2, kv.1))).map (fun pn => pn.1)).Nodup := by
    rw [List.map_map]
    simpa using hnodup
  obtain ⟨h1, h2, h3⟩ :=
    addTokenPaths_ok r (entries.map (fun kv => (kv.2, kv.1))) (sw.paths.getD [])
      hvalid1 hnodup1
  rcases hap : addTokenPaths r (entries.map (fun kv => (kv.2, kv.1))) (sw.paths.getD [])
    with ⟨e, ap1⟩
  rw [hap] at h1 h2
  obtain rfl : e = none := h1
  refine ⟨?_, ?_, ?_⟩
  · rw [importOAuth_obj, hap]
  · intro n p t hmem hlkt
    rw [importOAuth_obj, hap]
    exact h2 p n t (by exact List.mem_map_of_mem _ hmem) hlkt
  · intro k v hmem
    rw [importOAuth_obj, hap]
    show lookupAssoc (copyTemplateDefinitions (sw.definitions.getD [])) k = some v
    have hmem1 : (k, v) = ("TokenResponse", ({ schemaId := "template:TokenResponse" } : SchemaDef)) ∨
        (k, v) = ("ErrorResult", ({ schemaId := "template:ErrorResult" } : SchemaDef)) := by
      simpa [oauthSwagger] using hmem
    rcases hmem1 with heq | heq <;>
      obtain ⟨hk, hv⟩ := Prod.mk.injEq .. ▸ heq <;> subst hk <;> subst hv <;>
      simp [copyTemplateDefinitions, oauthSwagger, lookupAssoc_setAssoc_self,
        lookupAssoc_setAssoc_ne]

/-- Specification for the C5 witness. -/
def swW5 : Swagger :=
  { a127Services := [], volosResources := [], paths := some [], definitions := some [] }

/-- Witness for C5: injecting the `token` endpoint at `/mytoken` into an
empty specification succeeds, installs the tagged template at `/mytoken`,
and copies the template definitions. -/
theorem successful_injection_copies_templates_witness :
    (importOAuth "oauth" (JsPaths.obj [("token", "/mytoken")]) swW5).1 = none ∧
    lookupAssoc ((importOAuth "oauth" (JsPaths.obj [("token", "/mytoken")]) swW5).2.paths.getD [])
      "/mytoken" =
      some (some (tagOauth { opsId := "template:token", oauthService := none } "oauth")) ∧
    lookupAssoc
      ((importOAuth "oauth" (JsPaths.obj [("token", "/mytoken")]) swW5).2.definitions.getD [])
      "TokenResponse" = some { schemaId := "template:TokenResponse" } := by
  obtain ⟨h1, h2, h3⟩ :=
    successful_injection_copies_templates "oauth" [("token", "/mytoken")] swW5
      (by decide) (by decide) (by decide) (by decide)
  exact ⟨h1, h2 "token" "/mytoken" _ (by decide) (by decide),
    h3 "TokenResponse" _ (by decide)⟩

end VolosAuth
